import Mathlib

/-
Verification development for the zipdf image-to-PDF conversion service.

The embedding models the batch media-processing pipeline of the repository:
  - fileService.processFiles / fileService.processImage / fileService.cleanupTempFiles
    (src/server/services/fileService.ts)
  - zipService.extractAndProcessImages (src/server/services/zipService.ts)
  - pdfService.generatePDF (src/server/services/pdfService.ts)
  - storage.cleanupFile (src/server/storage.ts)
  - converterController.convertToPdf (the request controller)

External effectful libraries (sharp, JSZip, the filesystem) are modelled as
oracle functions collected in an Env record: sharp metadata reading and
re-encoding may fail (Option), JSZip loading may fail (Option).  Filesystem
mutations performed by the pipeline (temp-file unlink, scratch-directory
creation and removal) are recorded as an explicit event trace, in the order
the source performs them.  Buffers are byte lists; page-layout arithmetic is
done over the rationals, mirroring the JavaScript numeric expressions.
-/

set_option maxHeartbeats 1000000

namespace Zipdf

/-- Byte buffers (Node Buffer) are modelled as lists of bytes. -/
abbrev Bytes := List Nat

/-- Helper for basename: characters of the current path segment, reversed;
reset whenever a slash is seen. -/
def basenameAux : List Char → List Char → List Char
  | [], acc => acc.reverse
  | c :: cs, acc => if c = '/' then basenameAux cs [] else basenameAux cs (c :: acc)

/-- Model of Node path.basename: the part of the path after the final slash
(for names without a trailing slash, which is how the repository uses it). -/
def basename (p : String) : String :=
  String.mk (basenameAux p.data [])

/-- Model of String.prototype.toLowerCase restricted to the alphabet the
repository compares against (ASCII). -/
def strToLower (s : String) : String :=
  String.mk (s.data.map Char.toLower)

/-- Model of String.prototype.endsWith. -/
def strEndsWith (s suff : String) : Bool :=
  suff.data.isSuffixOf s.data

/-- Position of the last dot in a character list, if any. -/
def lastDot : List Char → Option Nat
  | [] => none
  | c :: cs =>
    match lastDot cs with
    | some i => some (i + 1)
    | none => if c = '.' then some 0 else none

/-- Model of Node path.extname: the suffix of the final path segment from its
last dot, and the empty string when the segment has no dot or starts with its
only dot. -/
def extname (p : String) : String :=
  let b := basename p
  match lastDot b.data with
  | none => ""
  | some 0 => ""
  | some i => String.mk (b.data.drop i)

/-- ProcessedImage record of fileService.ts / zipService.ts: re-encoded bytes,
the original filename, and the pixel dimensions of the original decode. -/
structure ProcessedImage where
  buffer : Bytes
  filename : String
  width : Nat
  height : Nat
deriving DecidableEq

/-- FileProcessingOptions of fileService.ts / zipService.ts. -/
structure FileProcessingOptions where
  quality : Nat
deriving DecidableEq

/-- Output encoder family chosen by the sharp re-encoding branches. -/
inductive ImgFormat where
  | jpeg
  | png
  | webp
deriving DecidableEq

/-- One entry of a loaded ZIP container, as enumerated from JSZip files:
its key (relative path), its directory flag, and the bytes its async
extraction yields (none models the extraction call throwing). -/
structure ZipEntry where
  relativePath : String
  dir : Bool
  content : Option Bytes
deriving DecidableEq

/-- Oracles for the effectful libraries: sharp metadata (none models a decode
throw or absent dimensions), sharp re-encoding to a buffer (none models a
re-encode throw), and JSZip loadAsync (none models a corrupt container). -/
structure Env where
  meta : Bytes → Option (Nat × Nat)
  encode : ImgFormat → Nat → Bytes → Option Bytes
  loadZip : Bytes → Option (List ZipEntry)

/-- Express.Multer.File as the pipeline consumes it: declared name and
content-type, the temp-file path, the stat size of the temp file (none models
the stat call throwing because the file is unreadable), and its bytes. -/
structure MulterFile where
  originalname : String
  mimetype : String
  path : String
  statSize : Option Nat
  content : Bytes
deriving DecidableEq

/-- Filesystem mutations the pipeline performs, recorded in order. -/
inductive FsEvent where
  | ensureDir (p : String)
  | removeDir (p : String)
  | unlink (p : String)
deriving DecidableEq

/-- Encoder selection of fileService.processImage lines 105-114: by declared
content-type, defaulting to jpeg. -/
def chooseFormatByMime (mimetype : String) : ImgFormat :=
  if mimetype = "image/jpeg" ∨ mimetype = "image/jpg" then ImgFormat.jpeg
  else if mimetype = "image/png" then ImgFormat.png
  else if mimetype = "image/webp" then ImgFormat.webp
  else ImgFormat.jpeg

/-- Encoder selection of zipService lines 132-141: by entry extension,
defaulting to jpeg. -/
def chooseFormatByExt (ext : String) : ImgFormat :=
  if ext = ".jpg" ∨ ext = ".jpeg" then ImgFormat.jpeg
  else if ext = ".png" then ImgFormat.png
  else if ext = ".webp" then ImgFormat.webp
  else ImgFormat.jpeg

/-- fileService.processImage: decode via sharp, reject absent or zero
dimensions, re-encode by declared content-type; every failure is caught and
becomes null. -/
def processImage (env : Env) (file : MulterFile) (options : FileProcessingOptions) :
    Option ProcessedImage :=
  match env.meta file.content with
  | none => none
  | some (w, h) =>
    if w = 0 ∨ h = 0 then none
    else
      match env.encode (chooseFormatByMime file.mimetype) options.quality file.content with
      | none => none
      | some buf =>
        some { buffer := buf, filename := file.originalname, width := w, height := h }

/-- Image extension allow-list of zipService line 85 (ZIP entries). -/
def imageExtensions : List String :=
  [".jpg", ".jpeg", ".png", ".gif", ".bmp", ".tiff", ".webp"]

/-- Image extension allow-list of fileService line 59 (loose uploads). -/
def looseImageExts : List String :=
  [".jpg", ".jpeg", ".png", ".gif", ".bmp", ".tiff"]

/-- Per-entry step of the zipService extraction loop, lines 90-165: skip
directories, skip entries whose extraction throws, skip non-image extensions,
skip zero-byte contents, decode and re-encode by extension; every per-entry
failure yields none (the entry is dropped). -/
def processZipEntry (env : Env) (options : FileProcessingOptions) (entry : ZipEntry) :
    Option ProcessedImage :=
  if entry.dir then none
  else
    let fileName := basename entry.relativePath
    match entry.content with
    | none => none
    | some content =>
      let ext := strToLower (extname fileName)
      if imageExtensions.contains ext then
        if content.length = 0 then none
        else
          match env.meta content with
          | none => none
          | some (w, h) =>
            if w = 0 ∨ h = 0 then none
            else
              match env.encode (chooseFormatByExt ext) options.quality content with
              | none => none
              | some buf =>
                some { buffer := buf, filename := fileName, width := w, height := h }
      else none

/-- The extraction loop of zipService lines 90-165, with the mutable
processedImages array made an explicit accumulator. -/
def extractLoop (env : Env) (options : FileProcessingOptions) :
    List ZipEntry → List ProcessedImage → List ProcessedImage
  | [], acc => acc
  | e :: rest, acc =>
    match processZipEntry env options e with
    | some img => extractLoop env options rest (acc ++ [img])
    | none => extractLoop env options rest acc

/-- zipService.extractAndProcessImages: the zipFile argument carries the bytes
at the given path (none models a missing file).  The error cases mirror the
source: missing file and zero-size file fail before the scratch directory is
created; a container JSZip cannot load, and a container with zero entries,
fail inside the inner try, after the scratch directory was created, so the
finally block removes it.  The returned trace records the directory events. -/
def extractAndProcessImages (env : Env) (extractDir : String)
    (zipFile : Option Bytes) (options : FileProcessingOptions) :
    Except String (List ProcessedImage) × List FsEvent :=
  match zipFile with
  | none => (Except.error "ZIP file does not exist", [])
  | some zipBuffer =>
    if zipBuffer.length = 0 then
      (Except.error "ZIP file is empty", [])
    else
      match env.loadZip zipBuffer with
      | none =>
        (Except.error "Invalid or corrupted ZIP file",
         [FsEvent.ensureDir extractDir, FsEvent.removeDir extractDir])
      | some entries =>
        if entries.length = 0 then
          (Except.error "ZIP file has no entries",
           [FsEvent.ensureDir extractDir, FsEvent.removeDir extractDir])
        else
          (Except.ok (extractLoop env options entries []),
           [FsEvent.ensureDir extractDir, FsEvent.removeDir extractDir])

/-- ZIP classification of fileService lines 40-44: extension .zip, or one of
three declared content-types, or a name that lowercases to a .zip suffix. -/
def classifyIsZip (file : MulterFile) : Bool :=
  strToLower (extname file.originalname) == ".zip" ||
  file.mimetype == "application/zip" ||
  file.mimetype == "application/x-zip-compressed" ||
  file.mimetype == "application/octet-stream" ||
  strEndsWith (strToLower file.originalname) ".zip"

/-- Body of the per-upload iteration of fileService.processFiles lines 27-79:
stat the temp file (a throw is caught by the per-upload catch), skip empty
files, route ZIP-classified uploads to extraction (extraction errors are
caught), route recognized loose image extensions to processImage (null is
dropped), skip everything else; the finally block unlinks the temp file, so
the unlink event closes every upload trace. -/
def processOneFile (env : Env) (options : FileProcessingOptions) (extractDir : String)
    (file : MulterFile) : List ProcessedImage × List FsEvent :=
  let body : List ProcessedImage × List FsEvent :=
    match file.statSize with
    | none => ([], [])
    | some sz =>
      if sz = 0 then ([], [])
      else if classifyIsZip file then
        let ex := extractAndProcessImages env extractDir (some file.content) options
        (match ex.1 with
         | Except.ok imgs => imgs
         | Except.error _ => [], ex.2)
      else if looseImageExts.contains (strToLower (extname file.originalname)) then
        (match processImage env file options with
         | some img => [img]
         | none => [], [])
      else ([], [])
  (body.1, body.2 ++ [FsEvent.unlink file.path])

/-- The loop of fileService.processFiles, with the mutable processedImages
array and the event trace made explicit accumulators. -/
def processFilesAux (env : Env) (options : FileProcessingOptions) (extractDir : String) :
    List MulterFile → List ProcessedImage → List FsEvent →
      List ProcessedImage × List FsEvent
  | [], acc, evs => (acc, evs)
  | f :: rest, acc, evs =>
    processFilesAux env options extractDir rest
      (acc ++ (processOneFile env options extractDir f).1)
      (evs ++ (processOneFile env options extractDir f).2)

/-- fileService.processFiles: iterate the uploads in order, accumulating
processed images and filesystem events. -/
def processFiles (env : Env) (options : FileProcessingOptions) (extractDir : String)
    (files : List MulterFile) : List ProcessedImage × List FsEvent :=
  processFilesAux env options extractDir files [] []

/-- Placement of one image on one page, as computed by pdfService.generatePDF
lines 60-78: width, height, and the top-left coordinates. -/
structure Placement where
  w : ℚ
  h : ℚ
  x : ℚ
  y : ℚ
deriving DecidableEq

/-- Layout arithmetic of pdfService.generatePDF lines 60-78: the content area
is pageW - 100 by pageH - 150 on every page; an image exceeding it in either
dimension is scaled by the minimum of the two area ratios, otherwise kept at
native size; x centers horizontally, y centers vertically after reserving 30
units for the caption exactly when filenames are shown. -/
def placeImage (pageW pageH : ℚ) (showFilenames : Bool) (imgWidth imgHeight : ℚ) :
    Placement :=
  let maxWidth := pageW - 100
  let maxHeight := pageH - 150
  let scaled :=
    if imgWidth > maxWidth ∨ imgHeight > maxHeight then
      let r := min (maxWidth / imgWidth) (maxHeight / imgHeight)
      (imgWidth * r, imgHeight * r)
    else
      (imgWidth, imgHeight)
  { w := scaled.1, h := scaled.2,
    x := (pageW - scaled.1) / 2,
    y := (pageH - scaled.2 - (if showFilenames then 30 else 0)) / 2 }

/-- PDFOptions of pdfService.ts. -/
structure PDFOptions where
  showFilenames : Bool
  pageSize : String
deriving DecidableEq

/-- One page of the generated document: the image placed on it, its placement,
the optional caption, and the Page N of T footer data. -/
structure PDFPage where
  image : ProcessedImage
  placement : Placement
  caption : Option String
  pageNumber : Nat
  pageCount : Nat
deriving DecidableEq

/-- Model of the pdfkit page-size table for the sizes the application offers. -/
def pageDims (pageSize : String) : ℚ × ℚ :=
  let s := String.mk (pageSize.data.map Char.toUpper)
  if s = "A4" then (59528 / 100, 84189 / 100)
  else if s = "LETTER" then (612, 792)
  else if s = "LEGAL" then (612, 1008)
  else (0, 0)

/-- Construction of one page inside the generatePDF loop. -/
def mkPage (pageW pageH : ℚ) (options : PDFOptions) (total : Nat) (idx : Nat)
    (img : ProcessedImage) : PDFPage :=
  { image := img,
    placement := placeImage pageW pageH options.showFilenames
        (img.width : ℚ) (img.height : ℚ),
    caption := if options.showFilenames then some img.filename else none,
    pageNumber := idx + 1,
    pageCount := total }

/-- pdfService.generatePDF: one page per image, in input order, with the
layout of lines 60-78 and the footer of lines 99-105. -/
def generatePDF (images : List ProcessedImage) (options : PDFOptions) : List PDFPage :=
  let dims := pageDims options.pageSize
  images.enum.map fun p => mkPage dims.1 dims.2 options images.length p.1 p.2

/-- fileService.cleanupTempFiles over a filesystem modelled as the list of
existing paths: unlink the path when it exists, otherwise do nothing; every
error is caught, so the operation is total. -/
def cleanupTempFiles (diskFiles : List String) (filePath : String) : List String :=
  if filePath ∈ diskFiles then diskFiles.erase filePath else diskFiles

/-- storage.cleanupFile, the same guarded unlink over the modelled
filesystem. -/
def cleanupFile (diskFiles : List String) (filePath : String) : List String :=
  if filePath ∈ diskFiles then diskFiles.erase filePath else diskFiles

/-- The flat options bag the controller reads from the request body; absent
fields are modelled by the empty string, which JavaScript treats as falsy in
the defaulting expressions. -/
structure RequestBody where
  showFilenames : String
  imageQuality : String
  pageSize : String
deriving DecidableEq

/-- Quality mapping of the controller: high to 100, low to 50, anything else
to the medium default 80. -/
def qualityValue (imageQuality : String) : Nat :=
  if imageQuality = "high" then 100
  else if imageQuality = "low" then 50
  else 80

/-- Outcome of one conversion request: a structured failure or a generated
document. -/
inductive ConvertOutcome where
  | failure (status : Nat) (message : String)
  | document (pages : List PDFPage)
deriving DecidableEq

/-- converterController.convertToPdf: reject an empty upload list, process the
batch, reject an empty processed batch, otherwise generate the document. -/
def convertToPdf (env : Env) (extractDir : String) (files : List MulterFile)
    (body : RequestBody) : ConvertOutcome :=
  if files.length = 0 then
    ConvertOutcome.failure 400 "No files were uploaded"
  else
    let iq := if body.imageQuality = "" then "medium" else body.imageQuality
    let ps := if body.pageSize = "" then "a4" else body.pageSize
    let sf := body.showFilenames == "true"
    let imgs := (processFiles env { quality := qualityValue iq } extractDir files).1
    if imgs.length = 0 then
      ConvertOutcome.failure 400 "No valid images found in the uploaded files"
    else
      ConvertOutcome.document (generatePDF imgs { showFilenames := sf, pageSize := ps })

/-- Failure of one upload inside processFiles, in the forms the source
catches: the stat of the temp file throws, the temp file is empty, the upload
is routed to extraction and extraction throws, or the upload is routed to
processImage and decoding or re-encoding fails there. -/
def uploadFails (env : Env) (options : FileProcessingOptions) (extractDir : String)
    (f : MulterFile) : Prop :=
  f.statSize = none ∨ f.statSize = some 0 ∨
    (classifyIsZip f = true ∧
      ∃ msg, (extractAndProcessImages env extractDir (some f.content) options).1 =
        Except.error msg) ∨
    (classifyIsZip f = false ∧
      looseImageExts.contains (strToLower (extname f.originalname)) = true ∧
      processImage env f options = none)

/-- Oracle fixture: decoding any nonempty buffer succeeds with dimensions 2
by 3, re-encoding returns the buffer unchanged, and ZIP loading always fails
as corrupt. -/
def env0 : Env :=
  { meta := fun b => if b.length = 0 then none else some (2, 3),
    encode := fun _ _ b => some b,
    loadZip := fun _ => none }

/-- Upload fixture: a well-formed loose jpeg upload. -/
def good0 : MulterFile :=
  { originalname := "a.jpg", mimetype := "image/jpeg", path := "up1",
    statSize := some 3, content := [1, 2, 3] }

/-- Upload fixture: an upload whose temp file cannot be stat-ed. -/
def bad0 : MulterFile :=
  { originalname := "b.jpg", mimetype := "image/jpeg", path := "up2",
    statSize := none, content := [] }

/-- Upload fixture: an image-extension name with a ZIP declared content-type. -/
def fileC3 : MulterFile :=
  { originalname := "photo.jpg", mimetype := "application/zip", path := "up3",
    statSize := some 3, content := [1, 2, 3] }

/-- Upload fixture: a loose webp upload with a webp declared content-type. -/
def fileC7 : MulterFile :=
  { originalname := "photo.webp", mimetype := "image/webp", path := "up7",
    statSize := some 3, content := [1, 2, 3] }

/-- Oracle fixture whose ZIP loader parses every buffer as a container with
zero entries. -/
def envC6 : Env :=
  { meta := fun _ => some (4, 4),
    encode := fun _ _ b => some b,
    loadZip := fun _ => some [] }

/-- Entry fixture: a non-image container entry. -/
def entryTxt : ZipEntry :=
  { relativePath := "notes/readme.txt", dir := false, content := some [7] }

/-- Oracle fixture whose ZIP loader parses every buffer as a container with a
single non-image entry. -/
def envC6b : Env :=
  { meta := fun _ => some (4, 4),
    encode := fun _ _ b => some b,
    loadZip := fun _ => some [entryTxt] }

/-- Entry fixture: an image-extension entry whose extracted content is empty. -/
def entry10 : ZipEntry :=
  { relativePath := "pics/empty.png", dir := false, content := some [] }

/-- Request-body fixture with every recognized option present. -/
def body0 : RequestBody :=
  { showFilenames := "true", imageQuality := "medium", pageSize := "a4" }

/- ## General lemmas about the embedded pipeline -/

/-- The extraction loop accumulates exactly the filterMap of its entry list,
in enumeration order. -/
theorem extractLoop_eq_append (env : Env) (options : FileProcessingOptions) :
    ∀ (entries : List ZipEntry) (acc : List ProcessedImage),
      extractLoop env options entries acc =
        acc ++ entries.filterMap (processZipEntry env options) := by
  intro entries
  induction entries with
  | nil => intro acc; simp [extractLoop]
  | cons e rest ih =>
    intro acc
    cases h : processZipEntry env options e with
    | none => simp [extractLoop, h, ih, List.filterMap_cons]
    | some img => simp [extractLoop, h, ih, List.filterMap_cons]

/-- The batch loop accumulates the concatenation of the per-upload image
lists and the concatenation of the per-upload event traces. -/
theorem processFilesAux_eq_append (env : Env) (options : FileProcessingOptions)
    (extractDir : String) :
    ∀ (files : List MulterFile) (acc : List ProcessedImage) (evs : List FsEvent),
      processFilesAux env options extractDir files acc evs =
        (acc ++ files.flatMap (fun f => (processOneFile env options extractDir f).1),
         evs ++ files.flatMap (fun f => (processOneFile env options extractDir f).2)) := by
  intro files
  induction files with
  | nil => intro acc evs; simp [processFilesAux]
  | cons f rest ih =>
    intro acc evs
    simp only [processFilesAux, ih, List.flatMap_cons, List.append_assoc]

/-- processFiles unfolded to the flat per-upload concatenations. -/
theorem processFiles_eq (env : Env) (options : FileProcessingOptions)
    (extractDir : String) (files : List MulterFile) :
    processFiles env options extractDir files =
      (files.flatMap (fun f => (processOneFile env options extractDir f).1),
       files.flatMap (fun f => (processOneFile env options extractDir f).2)) := by
  unfold processFiles
  rw [processFilesAux_eq_append]
  simp

/-- A flatMap in which every element contributes a singleton has the length
of the underlying list. -/
theorem flatMap_length_one {α β : Type} (g : α → List β) :
    ∀ l : List α, (∀ f ∈ l, (g f).length = 1) → (l.flatMap g).length = l.length := by
  intro l
  induction l with
  | nil => intro _; simp
  | cons a as ih =>
    intro h
    simp only [List.flatMap_cons, List.length_append, List.length_cons]
    rw [h a (List.mem_cons_self a as), ih (fun f hf => h f (List.mem_cons_of_mem a hf))]
    omega

/-- A failing upload contributes no processed image. -/
theorem uploadFails_nil (env : Env) (options : FileProcessingOptions)
    (extractDir : String) (f : MulterFile)
    (h : uploadFails env options extractDir f) :
    (processOneFile env options extractDir f).1 = [] := by
  unfold processOneFile
  rcases h with h | h | ⟨hz, msg, hm⟩ | ⟨hz, hext, hp⟩
  · simp [h]
  · simp [h]
  · cases hs : f.statSize with
    | none => simp
    | some sz =>
      by_cases hsz : sz = 0
      · simp [hsz]
      · simp [hsz, hz, hm]
  · cases hs : f.statSize with
    | none => simp
    | some sz =>
      by_cases hsz : sz = 0
      · simp [hsz]
      · simp [hsz, hz, hext, hp]

/- ## Claim theorems -/

/-- C1: order preservation.  The batch result is the in-order concatenation
of each upload's contribution, the extraction loop contributes an archive's
entries in enumeration order, and page i of the generated document is built
from the i-th element of the processed-image sequence. -/
theorem c1_order_preservation (env : Env) (options : FileProcessingOptions)
    (extractDir : String) (files : List MulterFile) (entries : List ZipEntry)
    (images : List ProcessedImage) (popts : PDFOptions) :
    (processFiles env options extractDir files).1 =
        files.flatMap (fun f => (processOneFile env options extractDir f).1)
      ∧ extractLoop env options entries [] =
          entries.filterMap (processZipEntry env options)
      ∧ (generatePDF images popts).map PDFPage.image = images := by
  refine ⟨?_, ?_, ?_⟩
  · rw [processFiles_eq]
  · rw [extractLoop_eq_append]
    simp
  · simp only [generatePDF, List.map_map]
    exact List.enum_map_snd images

/-- Witness for C1 at a concrete batch, entry list, and image list. -/
theorem c1_witness :
    (processFiles env0 ⟨80⟩ "d" [good0]).1 =
        [good0].flatMap (fun f => (processOneFile env0 ⟨80⟩ "d" f).1)
      ∧ extractLoop env0 ⟨80⟩ [entry10] [] =
          [entry10].filterMap (processZipEntry env0 ⟨80⟩)
      ∧ (generatePDF [⟨[1, 2, 3], "a.jpg", 2, 3⟩] ⟨true, "a4"⟩).map PDFPage.image =
          [⟨[1, 2, 3], "a.jpg", 2, 3⟩] :=
  c1_order_preservation env0 ⟨80⟩ "d" [good0] [entry10]
    [⟨[1, 2, 3], "a.jpg", 2, 3⟩] ⟨true, "a4"⟩

/-- C2: partial-failure isolation.  A failing upload contributes nothing and
does not abort the batch: the surrounding uploads still contribute in order,
and when each of them yields exactly one image the batch yields exactly
those K images. -/
theorem c2_partial_failure_isolation (env : Env) (options : FileProcessingOptions)
    (extractDir : String) (pre post : List MulterFile) (bad : MulterFile)
    (hbad : uploadFails env options extractDir bad) :
    (processFiles env options extractDir (pre ++ bad :: post)).1 =
        (processFiles env options extractDir pre).1 ++
          (processFiles env options extractDir post).1
      ∧ ((∀ f ∈ pre ++ post, ((processOneFile env options extractDir f).1).length = 1) →
          ((processFiles env options extractDir (pre ++ bad :: post)).1).length =
            pre.length + post.length) := by
  have hnil := uploadFails_nil env options extractDir bad hbad
  constructor
  · simp [processFiles_eq, List.flatMap_append, List.flatMap_cons, hnil]
  · intro hone
    simp only [processFiles_eq, List.flatMap_append, List.flatMap_cons, hnil,
      List.nil_append, List.length_append]
    rw [flatMap_length_one _ pre (fun f hf => hone f (List.mem_append_left _ hf)),
      flatMap_length_one _ post (fun f hf => hone f (List.mem_append_right _ hf))]

/-- Witness for C2 at a concrete batch: an unreadable upload between two good
ones. -/
theorem c2_witness :
    (processFiles env0 ⟨80⟩ "d" ([good0] ++ bad0 :: [good0])).1 =
        (processFiles env0 ⟨80⟩ "d" [good0]).1 ++ (processFiles env0 ⟨80⟩ "d" [good0]).1
      ∧ ((∀ f ∈ [good0] ++ [good0],
            ((processOneFile env0 ⟨80⟩ "d" f).1).length = 1) →
          ((processFiles env0 ⟨80⟩ "d" ([good0] ++ bad0 :: [good0])).1).length =
            [good0].length + [good0].length) :=
  c2_partial_failure_isolation env0 ⟨80⟩ "d" [good0] [good0] bad0 (Or.inl rfl)

/-- C8: resource hygiene.  The batch trace is the concatenation of the
per-upload traces, each per-upload trace ends with the unlink of that
upload's temp file (so it precedes the next upload's processing), and every
extraction trace either never created the scratch directory or removed it as
its final action, on the success path and on every throwing path. -/
theorem c8_resource_release (env : Env) (options : FileProcessingOptions)
    (extractDir : String) (files : List MulterFile) (f : MulterFile)
    (zipFile : Option Bytes) :
    (processFiles env options extractDir files).2 =
        files.flatMap (fun g => (processOneFile env options extractDir g).2)
      ∧ (processOneFile env options extractDir f).2.getLast? =
          some (FsEvent.unlink f.path)
      ∧ ((extractAndProcessImages env extractDir zipFile options).2 = []
          ∨ (extractAndProcessImages env extractDir zipFile options).2 =
              [FsEvent.ensureDir extractDir, FsEvent.removeDir extractDir]) := by
  refine ⟨?_, ?_, ?_⟩
  · rw [processFiles_eq]
  · simp only [processOneFile]
    exact List.getLast?_concat _
  · unfold extractAndProcessImages
    cases zipFile with
    | none => simp
    | some zipBuffer =>
      by_cases h0 : zipBuffer.length = 0
      · simp [h0]
      · simp only [h0, if_false]
        cases hl : env.loadZip zipBuffer with
        | none => simp
        | some entries =>
          by_cases he : entries.length = 0
          · simp [he]
          · simp [he]

/-- Witness for C8 at a concrete batch, upload, and archive buffer. -/
theorem c8_witness :
    (processFiles env0 ⟨80⟩ "d" [good0]).2 =
        [good0].flatMap (fun g => (processOneFile env0 ⟨80⟩ "d" g).2)
      ∧ (processOneFile env0 ⟨80⟩ "d" good0).2.getLast? =
          some (FsEvent.unlink good0.path)
      ∧ ((extractAndProcessImages env0 "d" (some [1, 2, 3]) ⟨80⟩).2 = []
          ∨ (extractAndProcessImages env0 "d" (some [1, 2, 3]) ⟨80⟩).2 =
              [FsEvent.ensureDir "d", FsEvent.removeDir "d"]) :=
  c8_resource_release env0 ⟨80⟩ "d" [good0] good0 (some [1, 2, 3])

/-- A container entry that is a directory, or whose extension is outside the
recognized image set, is dropped by the extraction step. -/
theorem processZipEntry_skip (env : Env) (options : FileProcessingOptions)
    (e : ZipEntry)
    (h : e.dir = true ∨
      imageExtensions.contains (strToLower (extname (basename e.relativePath))) = false) :
    processZipEntry env options e = none := by
  unfold processZipEntry
  rcases h with h | h
  · simp [h]
  · cases hd : e.dir with
    | false =>
      cases hc : e.content with
      | none => simp [hd, hc]
      | some c =>
        have hmem : strToLower (extname (basename e.relativePath)) ∉ imageExtensions := by
          simpa using h
        simp [hd, hc, hmem]
    | true => simp [hd]

/-- C3 counterexample: an upload named photo.jpg with declared content-type
application/zip is classified as an archive and sent to extraction (which
here fails, so it contributes nothing), even though the image normalizer
would have processed it; the extension does not take precedence. -/
theorem c3_counterexample :
    classifyIsZip fileC3 = true
      ∧ (processOneFile env0 ⟨80⟩ "d" fileC3).1 = []
      ∧ processImage env0 fileC3 ⟨80⟩ =
          some { buffer := [1, 2, 3], filename := "photo.jpg", width := 2, height := 3 } :=
  ⟨rfl, rfl, rfl⟩

/-- C3 amended: a ZIP-matching declared content-type (application/zip,
application/x-zip-compressed, or application/octet-stream) forces archive
classification regardless of the extension; only an upload that is not
ZIP-classified and has a recognized image extension is delegated to the image
normalizer. -/
theorem c3_classification_amended (env : Env) (options : FileProcessingOptions)
    (extractDir : String) (f : MulterFile) :
    ((f.mimetype = "application/zip" ∨ f.mimetype = "application/x-zip-compressed" ∨
        f.mimetype = "application/octet-stream") → classifyIsZip f = true)
      ∧ (classifyIsZip f = false →
          looseImageExts.contains (strToLower (extname f.originalname)) = true →
          ∀ sz, f.statSize = some sz → sz ≠ 0 →
            (processOneFile env options extractDir f).1 =
              (match processImage env f options with
               | some img => [img]
               | none => [])) := by
  constructor
  · intro h
    unfold classifyIsZip
    rcases h with h | h | h <;> simp [h]
  · intro hz hext sz hs hsz
    unfold processOneFile
    have hmem : strToLower (extname f.originalname) ∈ looseImageExts := by
      simpa using hext
    simp [hs, hsz, hz, hmem]

/-- Witness for C3 amended: the content-type clause at fileC3 and the
image-delegation clause at a well-formed jpeg upload. -/
theorem c3_witness :
    classifyIsZip fileC3 = true
      ∧ (processOneFile env0 ⟨80⟩ "d" good0).1 =
          (match processImage env0 good0 ⟨80⟩ with
           | some img => [img]
           | none => []) :=
  ⟨(c3_classification_amended env0 ⟨80⟩ "d" fileC3).1 (Or.inl rfl),
   (c3_classification_amended env0 ⟨80⟩ "d" good0).2 rfl rfl 3 rfl (by decide)⟩

/-- C4 counterexample: with captions enabled, a 100 by 100 image on a 600 by
800 page is placed at y = 335, not at the page-centered 350, so the placed
image is not centered on the page. -/
theorem c4_counterexample :
    (placeImage 600 800 true 100 100).y ≠ (800 - (100 : ℚ)) / 2 := by
  simp only [placeImage]
  norm_num

/-- C4 amended: scale-to-fit is as claimed against the content area the code
uses, and the image is centered horizontally; vertically its center sits at
half of the page height minus the 30-unit caption allowance when captions are
enabled, and at half the page height otherwise. -/
theorem c4_scale_to_fit_amended (pageW pageH : ℚ) (cap : Bool) (w h : ℚ) :
    ((w > pageW - 100 ∨ h > pageH - 150) →
        (placeImage pageW pageH cap w h).w =
            w * min ((pageW - 100) / w) ((pageH - 150) / h)
          ∧ (placeImage pageW pageH cap w h).h =
            h * min ((pageW - 100) / w) ((pageH - 150) / h))
      ∧ (¬(w > pageW - 100 ∨ h > pageH - 150) →
          (placeImage pageW pageH cap w h).w = w
            ∧ (placeImage pageW pageH cap w h).h = h)
      ∧ (placeImage pageW pageH cap w h).x + (placeImage pageW pageH cap w h).w / 2 =
          pageW / 2
      ∧ (placeImage pageW pageH cap w h).y + (placeImage pageW pageH cap w h).h / 2 =
          (pageH - (if cap then (30 : ℚ) else 0)) / 2 := by
  refine ⟨?_, ?_, ?_, ?_⟩
  · intro hcc
    simp [placeImage, if_pos hcc]
  · intro hn
    simp [placeImage, if_neg hn]
  · simp only [placeImage]
    split <;> ring
  · cases cap <;> simp only [placeImage] <;> split <;> simp <;> ring

/-- Witness for C4 amended: an oversized image on a 600 by 800 page with
captions enabled is scaled by the minimum area ratio and centered
horizontally. -/
theorem c4_witness :
    (placeImage 600 800 true 1000 100).w =
        1000 * min (((600 : ℚ) - 100) / 1000) (((800 : ℚ) - 150) / 100)
      ∧ (placeImage 600 800 true 1000 100).x +
          (placeImage 600 800 true 1000 100).w / 2 = (600 : ℚ) / 2 :=
  ⟨((c4_scale_to_fit_amended 600 800 true 1000 100).1 (Or.inl (by norm_num))).1,
   (c4_scale_to_fit_amended 600 800 true 1000 100).2.2.1⟩

/-- C5 counterexample: with captions disabled, a 100 by 680 image fits the
claimed content area of a 600 by 800 page (500 by 700) yet is scaled down to
height 650, because the code always reserves 150 units of height. -/
theorem c5_counterexample :
    (100 : ℚ) ≤ 600 - 100 ∧ (680 : ℚ) ≤ 800 - 100 ∧
      (placeImage 600 800 false 100 680).h ≠ 680 := by
  refine ⟨by norm_num, by norm_num, ?_⟩
  simp only [placeImage]
  norm_num [min_def]

/-- C5 amended: the content area used for scale-to-fit is pageW - 100 by
pageH - 150 on every page, independent of the caption setting; the caption
setting only shifts the vertical position up by 15 units. -/
theorem c5_content_area_amended (pageW pageH : ℚ) (w h : ℚ) :
    (placeImage pageW pageH true w h).w = (placeImage pageW pageH false w h).w
      ∧ (placeImage pageW pageH true w h).h = (placeImage pageW pageH false w h).h
      ∧ (placeImage pageW pageH true w h).x = (placeImage pageW pageH false w h).x
      ∧ (placeImage pageW pageH true w h).y = (placeImage pageW pageH false w h).y - 15
      ∧ (¬(w > pageW - 100 ∨ h > pageH - 150) →
          (placeImage pageW pageH true w h).w = w
            ∧ (placeImage pageW pageH true w h).h = h) := by
  refine ⟨rfl, rfl, rfl, ?_, ?_⟩
  · simp only [placeImage]
    split <;> simp <;> ring
  · intro hn
    simp [placeImage, if_neg hn]

/-- Witness for C5 amended: a 100 by 100 image on a 600 by 800 page with
captions enabled is kept at native size. -/
theorem c5_witness :
    (placeImage 600 800 true 100 100).w = 100
      ∧ (placeImage 600 800 true 100 100).h = 100 :=
  (c5_content_area_amended 600 800 100 100).2.2.2.2 (by norm_num)

/-- C6 counterexample: an archive that parses as a container with zero
entries (hence zero image entries) makes the extractor raise an error rather
than return an empty sequence. -/
theorem c6_counterexample :
    (extractAndProcessImages envC6 "d" (some [1]) ⟨80⟩).1 =
      Except.error "ZIP file has no entries" := rfl

/-- C6 amended: an archive that parses with at least one entry but zero image
entries yields the empty sequence without error (a zero-entry container is
instead rejected), and a request whose total processed batch is empty yields
the client-facing failure result, with no document generated. -/
theorem c6_empty_handling_amended (env : Env) (extractDir : String)
    (options : FileProcessingOptions) (zipBuffer : Bytes) (entries : List ZipEntry)
    (files : List MulterFile) (body : RequestBody)
    (hload : env.loadZip zipBuffer = some entries)
    (hnz : zipBuffer.length ≠ 0) (hne : entries ≠ [])
    (himg : ∀ e ∈ entries, e.dir = true ∨
        imageExtensions.contains (strToLower (extname (basename e.relativePath))) = false)
    (hfiles : files ≠ [])
    (hempty : (processFiles env
        { quality := qualityValue
            (if body.imageQuality = "" then "medium" else body.imageQuality) }
        extractDir files).1 = []) :
    (extractAndProcessImages env extractDir (some zipBuffer) options).1 =
        Except.ok []
      ∧ convertToPdf env extractDir files body =
          ConvertOutcome.failure 400 "No valid images found in the uploaded files" := by
  constructor
  · unfold extractAndProcessImages
    simp only [hnz, if_false, hload, List.length_eq_zero, hne, if_neg]
    rw [extractLoop_eq_append]
    simp only [List.nil_append, Except.ok.injEq]
    exact List.filterMap_eq_nil_iff.mpr fun e he =>
      processZipEntry_skip env options e (himg e he)
  · unfold convertToPdf
    have hlen : files.length ≠ 0 := by
      simpa [List.length_eq_zero] using hfiles
    simp only [hlen, if_false, hempty, List.length_nil, if_pos]

/-- Witness for C6 amended: a container holding one text entry extracts to
the empty sequence, and a batch of one unreadable upload fails with the
no-valid-images message. -/
theorem c6_witness :
    (extractAndProcessImages envC6b "d" (some [1]) ⟨80⟩).1 = Except.ok []
      ∧ convertToPdf envC6b "d" [bad0] body0 =
          ConvertOutcome.failure 400 "No valid images found in the uploaded files" :=
  c6_empty_handling_amended envC6b "d" ⟨80⟩ [1] [entryTxt] [bad0] body0
    rfl (by decide) (by decide) (by decide) (by decide) rfl

/-- C7 counterexample: a loose photo.webp upload with declared content-type
image/webp is not ZIP-classified and contributes nothing to the batch, even
though the image normalizer would have processed it. -/
theorem c7_counterexample :
    classifyIsZip fileC7 = false
      ∧ (processOneFile env0 ⟨80⟩ "d" fileC7).1 = []
      ∧ processImage env0 fileC7 ⟨80⟩ =
          some { buffer := [1, 2, 3], filename := "photo.webp", width := 2, height := 3 } :=
  ⟨rfl, rfl, rfl⟩

/-- C7 amended: the webp extension is recognized only for entries inside
archives; it is absent from the loose-upload image-extension list, so a
non-ZIP-classified loose webp upload is skipped as unsupported and
contributes nothing. -/
theorem c7_webp_not_loose_amended (env : Env) (options : FileProcessingOptions)
    (extractDir : String) (f : MulterFile)
    (hext : strToLower (extname f.originalname) = ".webp")
    (hz : classifyIsZip f = false) :
    looseImageExts.contains ".webp" = false
      ∧ imageExtensions.contains ".webp" = true
      ∧ (processOneFile env options extractDir f).1 = [] := by
  refine ⟨by decide, by decide, ?_⟩
  unfold processOneFile
  cases hs : f.statSize with
  | none => simp
  | some sz =>
    by_cases hsz : sz = 0
    · simp [hsz]
    · have hmem : ".webp" ∉ looseImageExts := by decide
      simp [hsz, hz, hext, hmem]

/-- Witness for C7 amended at the concrete webp upload. -/
theorem c7_witness :
    looseImageExts.contains ".webp" = false
      ∧ imageExtensions.contains ".webp" = true
      ∧ (processOneFile env0 ⟨80⟩ "d" fileC7).1 = [] :=
  c7_webp_not_loose_amended env0 ⟨80⟩ "d" fileC7 rfl rfl

/-- C9: idempotent cleanup.  Both release operations are total (every
filesystem error is caught); on a path that does not exist they change
nothing, and on an existing path they delete exactly that file. -/
theorem c9_idempotent_cleanup (diskFiles : List String) (p : String) :
    (p ∉ diskFiles → cleanupTempFiles diskFiles p = diskFiles
        ∧ cleanupFile diskFiles p = diskFiles)
      ∧ (p ∈ diskFiles → cleanupTempFiles diskFiles p = diskFiles.erase p
          ∧ cleanupFile diskFiles p = diskFiles.erase p) := by
  constructor
  · intro h
    simp [cleanupTempFiles, cleanupFile, h]
  · intro h
    simp [cleanupTempFiles, cleanupFile, h]

/-- Witness for C9 on a concrete two-file filesystem. -/
theorem c9_witness :
    (cleanupTempFiles ["a", "b"] "c" = ["a", "b"]
        ∧ cleanupFile ["a", "b"] "c" = ["a", "b"])
      ∧ (cleanupTempFiles ["a", "b"] "a" = (["a", "b"] : List String).erase "a"
          ∧ cleanupFile ["a", "b"] "a" = (["a", "b"] : List String).erase "a") :=
  ⟨(c9_idempotent_cleanup ["a", "b"] "c").1 (by decide),
   (c9_idempotent_cleanup ["a", "b"] "a").2 (by decide)⟩

/-- C10: a container entry with a recognized image extension but zero-byte
content is skipped without error: its per-entry step yields none, and the
extraction loop over any entry list containing it gives exactly the result
of the list without it, so no ProcessedImage arises from an empty buffer. -/
theorem c10_empty_entry_skipped (env : Env) (options : FileProcessingOptions)
    (e : ZipEntry) (l r : List ZipEntry)
    (hdir : e.dir = false) (hc : e.content = some [])
    (hext : imageExtensions.contains (strToLower (extname (basename e.relativePath))) = true) :
    processZipEntry env options e = none
      ∧ extractLoop env options (l ++ e :: r) [] = extractLoop env options (l ++ r) [] := by
  have hnone : processZipEntry env options e = none := by
    unfold processZipEntry
    simp [hdir, hc, hext]
  refine ⟨hnone, ?_⟩
  rw [extractLoop_eq_append, extractLoop_eq_append]
  simp [List.filterMap_append, List.filterMap_cons, hnone]

/-- Witness for C10 at a concrete zero-byte png entry. -/
theorem c10_witness :
    processZipEntry env0 ⟨80⟩ entry10 = none
      ∧ extractLoop env0 ⟨80⟩ ([] ++ entry10 :: []) [] =
          extractLoop env0 ⟨80⟩ ([] ++ []) [] :=
  c10_empty_entry_skipped env0 ⟨80⟩ entry10 [] [] rfl rfl (by decide)

end Zipdf
